import Mathlib

/-!
Verification of the MiddleMan message normalization and classification
pipeline (src/aiAnalyzer.js, src/db.js).

JavaScript values reaching the pipeline (classifier output parsed from
JSON, request bodies, records passed to the store) are modelled by the
inductive type `JSVal`.  Numbers are modelled as exact rationals: every
number the pipeline manipulates is a small decimal literal, far below
the range where IEEE-754 rounding could be observed.  Property access,
truthiness and the nullish-coalescing operator are modelled by
`getField`, `jsTruthy` and `nullish` below, following the ECMAScript
semantics for the cases that occur in this code (property access on a
primitive yields undefined; the code dereferences only through optional
chaining or behind a truthiness guard, so no TypeError path is
reachable).
-/

inductive JSVal where
  | null
  | undefined
  | bool (b : Bool)
  | num (q : Rat)
  | str (s : String)
  | arr (elems : List JSVal)
  | obj (fields : List (String × JSVal))
deriving Repr

/-- First-binding lookup in an object field list.  JS objects cannot hold
duplicate keys, and every object this development builds is
duplicate-free (JSON parsing and spreads go through `setKey`), so the
assoc-list is a faithful object model. -/
def lookupField : List (String × JSVal) → String → Option JSVal
  | [], _ => none
  | (k', v) :: rest, k => if k' = k then some v else lookupField rest k

/-- Property access `v[k]` (or `v?.[k]`): undefined on missing keys and on
non-objects, as in JS for the properties this code reads. -/
def getField (v : JSVal) (k : String) : JSVal :=
  match v with
  | .obj fs => (lookupField fs k).getD .undefined
  | _ => .undefined

/-- JS truthiness.  NaN does not arise in the model (numbers are exact
rationals). -/
def jsTruthy : JSVal → Bool
  | .null => false
  | .undefined => false
  | .bool b => b
  | .num q => decide (q ≠ 0)
  | .str s => decide (s ≠ "")
  | .arr _ => true
  | .obj _ => true

/-- The `??` operator: keep `v` unless it is null or undefined. -/
def nullish (v d : JSVal) : JSVal :=
  match v with
  | .null => d
  | .undefined => d
  | v => v

def isStr : JSVal → Bool
  | .str _ => true
  | _ => false

def isArr : JSVal → Bool
  | .arr _ => true
  | _ => false

def isObj : JSVal → Bool
  | .obj _ => true
  | _ => false

def isBool : JSVal → Bool
  | .bool _ => true
  | _ => false

/-- JS property assignment `o[k] = v`: overwrite in place if the key
exists, otherwise append (insertion order is preserved, as in JS). -/
def setKey : List (String × JSVal) → String → JSVal → List (String × JSVal)
  | [], k, v => [(k, v)]
  | (k', v') :: rest, k, v =>
    if k' = k then (k', v) :: rest else (k', v') :: setKey rest k v

/-- Object spread of `extra` over `base`: assign each entry of `extra`
over `base` in order, exactly as a JS object literal with two spreads
does. -/
def objAssign (base extra : List (String × JSVal)) : List (String × JSVal) :=
  extra.foldl (fun acc kv => setKey acc kv.1 kv.2) base

/-- The field list of an object value (empty for non-objects). -/
def objFields : JSVal → List (String × JSVal)
  | .obj fs => fs
  | _ => []

/-- src/aiAnalyzer.js lines 223-236, `normalizeParsed`: coerce arbitrary
classifier output into the five-field message shape with safe
defaults. -/
def normalizeParsed (parsed : JSVal) : JSVal :=
  .obj [
    ("summary",
      if isStr (getField parsed "summary") then getField parsed "summary" else .str ""),
    ("responseNeeded", .bool (jsTruthy (getField parsed "responseNeeded"))),
    ("neededToKnow",
      if isArr (getField parsed "neededToKnow") then getField parsed "neededToKnow"
      else .arr []),
    ("replyOptions",
      if jsTruthy (getField parsed "replyOptions")
          && isStr (getField (getField parsed "replyOptions") "boundary")
          && isStr (getField (getField parsed "replyOptions") "cooperative")
      then getField parsed "replyOptions"
      else .obj [("boundary", .str "Noted."), ("cooperative", .str "Thanks for the update.")]),
    ("flags",
      if isArr (getField parsed "flags") then getField parsed "flags"
      else .arr [.obj [("type", .str "non_json_output"), ("severity", .num 2)]])
  ]

/-- Schema conformance of a normalized message: an object whose required
fields are all present (so neither missing, null nor undefined) and
carry the right type, with `replyOptions` an object holding string
`boundary` and `cooperative` fields. -/
def conformantMessage (v : JSVal) : Bool :=
  isObj v
    && isStr (getField v "summary")
    && isBool (getField v "responseNeeded")
    && isArr (getField v "neededToKnow")
    && isArr (getField v "flags")
    && isObj (getField v "replyOptions")
    && isStr (getField (getField v "replyOptions") "boundary")
    && isStr (getField (getField v "replyOptions") "cooperative")

theorem getField_normalizeParsed_summary (x : JSVal) :
    getField (normalizeParsed x) "summary" =
      if isStr (getField x "summary") then getField x "summary" else .str "" := by
  simp [normalizeParsed, getField, lookupField]

theorem getField_normalizeParsed_responseNeeded (x : JSVal) :
    getField (normalizeParsed x) "responseNeeded" =
      .bool (jsTruthy (getField x "responseNeeded")) := by
  simp [normalizeParsed, getField, lookupField]

theorem getField_normalizeParsed_neededToKnow (x : JSVal) :
    getField (normalizeParsed x) "neededToKnow" =
      if isArr (getField x "neededToKnow") then getField x "neededToKnow" else .arr [] := by
  simp [normalizeParsed, getField, lookupField]

theorem getField_normalizeParsed_replyOptions (x : JSVal) :
    getField (normalizeParsed x) "replyOptions" =
      if jsTruthy (getField x "replyOptions")
          && isStr (getField (getField x "replyOptions") "boundary")
          && isStr (getField (getField x "replyOptions") "cooperative")
      then getField x "replyOptions"
      else .obj [("boundary", .str "Noted."), ("cooperative", .str "Thanks for the update.")] := by
  simp [normalizeParsed, getField, lookupField]

theorem getField_normalizeParsed_flags (x : JSVal) :
    getField (normalizeParsed x) "flags" =
      if isArr (getField x "flags") then getField x "flags"
      else .arr [.obj [("type", .str "non_json_output"), ("severity", .num 2)]] := by
  simp [normalizeParsed, getField, lookupField]

theorem isObj_of_isStr_getField (v : JSVal) (k : String)
    (h : isStr (getField v k) = true) : isObj v = true := by
  cases v <;> simp_all [getField, isStr, isObj]

theorem normalizeParsed_replyOptions_shape (x : JSVal) :
    isObj (getField (normalizeParsed x) "replyOptions") = true ∧
    isStr (getField (getField (normalizeParsed x) "replyOptions") "boundary") = true ∧
    isStr (getField (getField (normalizeParsed x) "replyOptions") "cooperative") = true := by
  rw [getField_normalizeParsed_replyOptions]
  by_cases hb : isStr (getField (getField x "replyOptions") "boundary") = true
  · by_cases hc : isStr (getField (getField x "replyOptions") "cooperative") = true
    · have hobj : isObj (getField x "replyOptions") = true :=
        isObj_of_isStr_getField _ _ hb
      have ht : jsTruthy (getField x "replyOptions") = true := by
        cases h : getField x "replyOptions" <;> simp_all [isObj, jsTruthy]
      rw [ht, hb, hc]
      simpa using ⟨hobj, hb, hc⟩
    · rw [Bool.not_eq_true] at hc
      rw [hc]
      simp [getField, lookupField, isObj, isStr]
  · rw [Bool.not_eq_true] at hb
    rw [hb]
    simp [getField, lookupField, isObj, isStr]

/-- Claim C1: for every value `x` the result of `normalizeParsed x` is a
record in which `summary` is a string, `responseNeeded` is a boolean,
`neededToKnow` and `flags` are sequences, and `replyOptions` is an
object with string `boundary` and `cooperative` fields; no required
field is missing, null or undefined.  Totality (the JS function never
throws) is reflected by `normalizeParsed` being a total Lean function
that follows the source's guarded property accesses. -/
theorem normalizeParsed_total_conformant (x : JSVal) :
    conformantMessage (normalizeParsed x) = true := by
  obtain ⟨h6, h7, h8⟩ := normalizeParsed_replyOptions_shape x
  simp only [conformantMessage, Bool.and_eq_true]
  refine ⟨⟨⟨⟨⟨⟨⟨?_, ?_⟩, ?_⟩, ?_⟩, ?_⟩, h6⟩, h7⟩, h8⟩
  · simp [normalizeParsed, isObj]
  · rw [getField_normalizeParsed_summary]
    split
    · assumption
    · simp [isStr]
  · rw [getField_normalizeParsed_responseNeeded]
    simp [isBool]
  · rw [getField_normalizeParsed_neededToKnow]
    split
    · assumption
    · simp [isArr]
  · rw [getField_normalizeParsed_flags]
    split
    · assumption
    · simp [isArr]

/-- Claim C7: normalizing an already-conformant message is the identity
on every schema field: the output record is equivalent to the input
(the JS function rebuilds the object, so equivalence is agreement on
all schema fields, which is all a conformant message carries). -/
theorem normalizeParsed_idempotent (m : JSVal)
    (h : conformantMessage m = true) :
    getField (normalizeParsed m) "summary" = getField m "summary" ∧
    getField (normalizeParsed m) "responseNeeded" = getField m "responseNeeded" ∧
    getField (normalizeParsed m) "neededToKnow" = getField m "neededToKnow" ∧
    getField (normalizeParsed m) "replyOptions" = getField m "replyOptions" ∧
    getField (normalizeParsed m) "flags" = getField m "flags" := by
  simp only [conformantMessage, Bool.and_eq_true] at h
  obtain ⟨⟨⟨⟨⟨⟨⟨-, hsum⟩, hrn⟩, hntk⟩, hfl⟩, hro⟩, hb⟩, hc⟩ := h
  refine ⟨?_, ?_, ?_, ?_, ?_⟩
  · rw [getField_normalizeParsed_summary, if_pos hsum]
  · rw [getField_normalizeParsed_responseNeeded]
    cases hg : getField m "responseNeeded" <;> simp_all [isBool, jsTruthy]
  · rw [getField_normalizeParsed_neededToKnow, if_pos hntk]
  · rw [getField_normalizeParsed_replyOptions]
    have ht : jsTruthy (getField m "replyOptions") = true := by
      cases hg : getField m "replyOptions" <;> simp_all [isObj, jsTruthy]
    rw [ht, hb, hc]
    rfl
  · rw [getField_normalizeParsed_flags, if_pos hfl]

/-- Witness for C7 at a concrete conformant message. -/
theorem normalizeParsed_idempotent_witness :
    conformantMessage (JSVal.obj
      [("summary", .str "Pickup time change requested"),
       ("responseNeeded", .bool true),
       ("neededToKnow", .arr [.str "Pickup at 5pm"]),
       ("replyOptions", .obj [("boundary", .str "Noted."), ("cooperative", .str "Yes, 5pm works.")]),
       ("flags", .arr [])]) = true ∧
    getField (normalizeParsed (JSVal.obj
      [("summary", .str "Pickup time change requested"),
       ("responseNeeded", .bool true),
       ("neededToKnow", .arr [.str "Pickup at 5pm"]),
       ("replyOptions", .obj [("boundary", .str "Noted."), ("cooperative", .str "Yes, 5pm works.")]),
       ("flags", .arr [])])) "summary" =
      getField (JSVal.obj
      [("summary", .str "Pickup time change requested"),
       ("responseNeeded", .bool true),
       ("neededToKnow", .arr [.str "Pickup at 5pm"]),
       ("replyOptions", .obj [("boundary", .str "Noted."), ("cooperative", .str "Yes, 5pm works.")]),
       ("flags", .arr [])]) "summary" :=
  ⟨by rfl, (normalizeParsed_idempotent _ (by rfl)).1⟩

/-!
String helpers mirroring the JS string methods used by the server.
`jsTrim` models `String.prototype.trim` (ASCII whitespace plus NBSP and
BOM; the remaining exotic Unicode space characters never occur in the
data handled here), `jsToLower` models `toLowerCase` (ASCII
case-folding, which coincides with JS on the ASCII addresses involved),
and `take180` models `slice(0, 180)` (UTF-16 code units modelled as
characters; astral-plane input is out of scope).
-/

def jsWs (c : Char) : Bool :=
  c = ' ' || c = '\t' || c = '\n' || c = '\r' || c = '\x0b' || c = '\x0c' ||
    c = '\u00A0' || c = '\uFEFF'

def jsTrim (s : String) : String :=
  ⟨((s.toList.dropWhile jsWs).reverse.dropWhile jsWs).reverse⟩

def jsToLower (s : String) : String :=
  ⟨s.toList.map Char.toLower⟩

def take180 (s : String) : String :=
  ⟨s.toList.take 180⟩

/-- src/aiAnalyzer.js lines 238-250, `buildFallbackMessage`: the record
stored when the classifier call itself failed.  String parameters model
the destructured `from`/`subject`/`text` fields (empty string for a
missing field, matching the `|| ""` defaulting at the call sites); the
conditionals mirror the JS truthiness tests on those strings. -/
def buildFallbackMessage (fromAddr subject text reasonType : String) : JSVal :=
  .obj [
    ("summary", .str "(AI unavailable) Message received."),
    ("responseNeeded", .bool true),
    ("neededToKnow", .arr [
      .str (if subject = "" then "Subject: (none)" else "Subject: " ++ subject),
      .str (if fromAddr = "" then "From: (unknown)" else "From: " ++ fromAddr),
      .str (if text = "" then "Body preview: (empty)"
            else "Body preview: " ++ take180 text)]),
    ("replyOptions", .obj [("boundary", .str "Noted."), ("cooperative", .str "Thanks for the update.")]),
    ("flags", .arr [.obj [("type", .str reasonType), ("severity", .num 3)]])
  ]

/-- Claim C3: for every input and every supplied reason tag, the fallback
record has summary exactly "(AI unavailable) Message received.",
responseNeeded true, and a flags sequence holding exactly one element,
an object with the supplied reason tag as type and severity 3. -/
theorem buildFallbackMessage_shape (fromAddr subject text reasonType : String) :
    getField (buildFallbackMessage fromAddr subject text reasonType) "summary" =
      .str "(AI unavailable) Message received." ∧
    getField (buildFallbackMessage fromAddr subject text reasonType) "responseNeeded" =
      .bool true ∧
    getField (buildFallbackMessage fromAddr subject text reasonType) "flags" =
      .arr [.obj [("type", .str reasonType), ("severity", .num 3)]] := by
  refine ⟨?_, ?_, ?_⟩ <;> simp [buildFallbackMessage, getField, lookupField]

/-!
`extractEmail` (src/aiAnalyzer.js lines 216-221).  The two regular
expressions are embedded directly:

* `extractAngle` is the first match of the pattern "angle bracket, one
  or more non-closing characters, closing angle bracket", searching
  start positions left to right; the captured group is everything
  between the opening bracket and the first closing bracket after it
  (the character class excludes only the closing bracket, so the run is
  maximal and the terminator is the first closing bracket).
* `emailAtPos`/`emailSearch` embed the email pattern: a maximal
  nonempty run of local-part characters, an at sign (since the at sign
  is not a local-part character, greedy matching with backtracking
  forces the maximal run), a nonempty run of domain characters split by
  backtracking from the longest candidate, a dot, and a maximal run of
  at least two ASCII letters.  The i-flag is embedded by allowing both
  letter cases in the classes.
-/

def isAsciiLetter (c : Char) : Bool :=
  ('A' ≤ c && c ≤ 'Z') || ('a' ≤ c && c ≤ 'z')

def isAsciiDigit (c : Char) : Bool :=
  '0' ≤ c && c ≤ '9'

def isAtomChar (c : Char) : Bool :=
  isAsciiLetter c || isAsciiDigit c || c = '.' || c = '_' || c = '%' || c = '+' || c = '-'

def isDomainChar (c : Char) : Bool :=
  isAsciiLetter c || isAsciiDigit c || c = '.' || c = '-'

def extractAngle : List Char → Option (List Char)
  | [] => none
  | c :: rest =>
    if c = '<' then
      let inner := rest.takeWhile (fun d => !(d = '>'))
      if inner ≠ [] ∧ inner.length < rest.length then some inner
      else extractAngle rest
    else extractAngle rest

/-- Backtracking search for the split of the domain run: try the longest
candidate first, require a dot followed by at least two letters. -/
def findDotSplit (afterAt : List Char) : Nat → Option (Nat × Nat)
  | 0 => none
  | j + 1 =>
    match afterAt.drop (j + 1) with
    | '.' :: afterDot =>
      let tld := afterDot.takeWhile isAsciiLetter
      if 2 ≤ tld.length then some (j + 1, tld.length) else findDotSplit afterAt j
    | _ => findDotSplit afterAt j

/-- Match of the email pattern anchored at the start of `l`. -/
def emailAtPos (l : List Char) : Option (List Char) :=
  let a := l.takeWhile isAtomChar
  if a = [] then none
  else
    match l.drop a.length with
    | '@' :: afterAt =>
      let b := afterAt.takeWhile isDomainChar
      if b = [] then none
      else
        match findDotSplit afterAt b.length with
        | some (j, tldLen) => some (l.take (a.length + 1 + j + 1 + tldLen))
        | none => none
    | _ => none

/-- Leftmost match of the email pattern. -/
def emailSearch : List Char → Option (List Char)
  | [] => none
  | c :: rest =>
    match emailAtPos (c :: rest) with
    | some m => some m
    | none => emailSearch rest

/-- src/aiAnalyzer.js lines 216-221, `extractEmail`: angle-bracket
content (trimmed) first, else the first email-pattern match, else the
trimmed raw string.  The captured angle group is always nonempty, so
the JS truthiness test on it always passes when the match exists. -/
def extractEmail (s : String) : String :=
  match extractAngle s.toList with
  | some inner => jsTrim ⟨inner⟩
  | none =>
    match emailSearch s.toList with
    | some m => ⟨m⟩
    | none => jsTrim s

/-- Claim C6: the derived sender address follows the precedence: trimmed
angle-bracket content when present (even when an email pattern occurs
elsewhere in the string), else the first email-pattern match, else the
trimmed raw string. -/
theorem extractEmail_precedence (s : String) :
    (∀ inner, extractAngle s.toList = some inner → extractEmail s = jsTrim ⟨inner⟩) ∧
    (extractAngle s.toList = none →
      ∀ m, emailSearch s.toList = some m → extractEmail s = ⟨m⟩) ∧
    (extractAngle s.toList = none → emailSearch s.toList = none →
      extractEmail s = jsTrim s) := by
  refine ⟨?_, ?_, ?_⟩
  · intro inner h
    have h' : extractAngle s.data = some inner := h
    simp [extractEmail, h']
  · intro h m hm
    have h' : extractAngle s.data = none := h
    have hm' : emailSearch s.data = some m := hm
    simp [extractEmail, h', hm']
  · intro h hm
    have h' : extractAngle s.data = none := h
    have hm' : emailSearch s.data = none := hm
    simp [extractEmail, h', hm']

/-- Witness for C6: the angle-bracket content wins even though another
email pattern occurs later in the string. -/
theorem extractEmail_precedence_witness :
    extractEmail "Jane <jane@x.com> second@y.com" = "jane@x.com" := by
  have h : extractAngle "Jane <jane@x.com> second@y.com".toList =
      some "jane@x.com".toList := by decide
  exact ((extractEmail_precedence "Jane <jane@x.com> second@y.com").1
    "jane@x.com".toList h).trans (by decide)

/-!
JSON parsing (`JSON.parse`), embedded from the RFC 8259 grammar that the
ECMAScript built-in implements: optional whitespace, then a value which
is null, true, false, a string with escape sequences, a number (integer
part without leading zeros, optional fraction, optional exponent), an
array, or an object; trailing non-whitespace makes the whole parse
fail.  A parse failure models the SyntaxError throw.  Numbers are read
exactly (JS rounds to binary64; the difference is unobservable for the
small literals this system handles).  Lone-surrogate escapes, which JS
keeps as unpaired UTF-16 units, are outside the character model.
Duplicate object keys follow the JS last-value-wins, first-position
rule via `setKey`. -/

def jsonWsChar (c : Char) : Bool :=
  c = ' ' || c = '\t' || c = '\n' || c = '\r'

def skipJsonWs (s : List Char) : List Char :=
  s.dropWhile jsonWsChar

def hexVal (c : Char) : Option Nat :=
  if '0' ≤ c ∧ c ≤ '9' then some (c.toNat - '0'.toNat)
  else if 'a' ≤ c ∧ c ≤ 'f' then some (c.toNat - 'a'.toNat + 10)
  else if 'A' ≤ c ∧ c ≤ 'F' then some (c.toNat - 'A'.toNat + 10)
  else none

def escapeChar (e : Char) : Option Char :=
  if e = '\"' then some '\"'
  else if e = '\\' then some '\\'
  else if e = '/' then some '/'
  else if e = 'b' then some '\x08'
  else if e = 'f' then some '\x0c'
  else if e = 'n' then some '\n'
  else if e = 'r' then some '\r'
  else if e = 't' then some '\t'
  else none

/-- Body of a JSON string after the opening quote: literal characters
(controls below 0x20 are rejected), escapes, and the closing quote. -/
def parseStringBody : Nat → List Char → Option (List Char × List Char)
  | 0, _ => none
  | _ + 1, [] => none
  | fuel + 1, c :: cs =>
    if c = '\"' then some ([], cs)
    else if c = '\\' then
      match cs with
      | 'u' :: h1 :: h2 :: h3 :: h4 :: cs' =>
        match hexVal h1, hexVal h2, hexVal h3, hexVal h4 with
        | some a, some b, some c2, some d =>
          let code := ((a * 16 + b) * 16 + c2) * 16 + d
          (parseStringBody fuel cs').map (fun pr => (Char.ofNat code :: pr.1, pr.2))
        | _, _, _, _ => none
      | e :: cs' =>
        match escapeChar e with
        | some ch => (parseStringBody fuel cs').map (fun pr => (ch :: pr.1, pr.2))
        | none => none
      | [] => none
    else if c.toNat < 32 then none
    else (parseStringBody fuel cs).map (fun pr => (c :: pr.1, pr.2))

def digitVal (c : Char) : Nat := c.toNat - '0'.toNat

def natOfDigits (ds : List Char) : Nat :=
  ds.foldl (fun acc c => acc * 10 + digitVal c) 0

/-- A JSON number: sign, integer part ("0" or a nonzero-led digit run),
optional fraction (a dot is consumed only when at least one digit
follows), optional exponent (likewise).  Anything left over stays in
the remainder, where the caller's grammar will reject it. -/
def parseNumber (s : List Char) : Option (Rat × List Char) :=
  let signSplit : Bool × List Char :=
    match s with
    | '-' :: rest => (true, rest)
    | _ => (false, s)
  let neg := signSplit.1
  let s1 := signSplit.2
  match s1 with
  | [] => none
  | c :: _ =>
    if !(isAsciiDigit c) then none
    else
      let intSplit : List Char × List Char :=
        if c = '0' then ([c], s1.tail)
        else (s1.takeWhile isAsciiDigit, s1.dropWhile isAsciiDigit)
      let intDs := intSplit.1
      let s2 := intSplit.2
      let fracSplit : List Char × List Char :=
        match s2 with
        | '.' :: rest =>
          let ds := rest.takeWhile isAsciiDigit
          if ds = [] then ([], s2) else (ds, rest.dropWhile isAsciiDigit)
        | _ => ([], s2)
      let fracDs := fracSplit.1
      let s3 := fracSplit.2
      let expSplit : Option (Bool × List Char) × List Char :=
        match s3 with
        | e :: '+' :: r2 =>
          if e = 'e' ∨ e = 'E' then
            let ds := r2.takeWhile isAsciiDigit
            if ds = [] then (none, s3) else (some (false, ds), r2.dropWhile isAsciiDigit)
          else (none, s3)
        | e :: '-' :: r2 =>
          if e = 'e' ∨ e = 'E' then
            let ds := r2.takeWhile isAsciiDigit
            if ds = [] then (none, s3) else (some (true, ds), r2.dropWhile isAsciiDigit)
          else (none, s3)
        | e :: r2 =>
          if e = 'e' ∨ e = 'E' then
            let ds := r2.takeWhile isAsciiDigit
            if ds = [] then (none, s3) else (some (false, ds), r2.dropWhile isAsciiDigit)
          else (none, s3)
        | [] => (none, s3)
      let s4 := expSplit.2
      let mantissa : Rat :=
        (natOfDigits intDs : Rat) + (natOfDigits fracDs : Rat) / ((10 : Rat) ^ fracDs.length)
      let scaled : Rat :=
        match expSplit.1 with
        | none => mantissa
        | some (expNeg, expDs) =>
          if expNeg then mantissa / ((10 : Rat) ^ natOfDigits expDs)
          else mantissa * ((10 : Rat) ^ natOfDigits expDs)
      some ((if neg then -scaled else scaled), s4)

mutual

def parseVal : Nat → List Char → Option (JSVal × List Char)
  | 0, _ => none
  | fuel + 1, s =>
    match skipJsonWs s with
    | 'n' :: 'u' :: 'l' :: 'l' :: rest => some (.null, rest)
    | 't' :: 'r' :: 'u' :: 'e' :: rest => some (.bool true, rest)
    | 'f' :: 'a' :: 'l' :: 's' :: 'e' :: rest => some (.bool false, rest)
    | '\"' :: rest =>
      match parseStringBody (rest.length + 1) rest with
      | some (cs, rem) => some (.str ⟨cs⟩, rem)
      | none => none
    | '[' :: rest =>
      match skipJsonWs rest with
      | ']' :: rem => some (.arr [], rem)
      | r =>
        match parseElems fuel r with
        | some (vs, rem) => some (.arr vs, rem)
        | none => none
    | '\x7b' :: rest =>
      match skipJsonWs rest with
      | '\x7d' :: rem => some (.obj [], rem)
      | r =>
        match parseMembers fuel r with
        | some (kvs, rem) => some (.obj (objAssign [] kvs), rem)
        | none => none
    | r =>
      match parseNumber r with
      | some (q, rem) => some (.num q, rem)
      | none => none

def parseElems : Nat → List Char → Option (List JSVal × List Char)
  | 0, _ => none
  | fuel + 1, s =>
    match parseVal fuel s with
    | none => none
    | some (v, rest) =>
      match skipJsonWs rest with
      | ',' :: rest' =>
        match parseElems fuel rest' with
        | some (vs, rem) => some (v :: vs, rem)
        | none => none
      | ']' :: rem => some ([v], rem)
      | _ => none

def parseMembers : Nat → List Char → Option (List (String × JSVal) × List Char)
  | 0, _ => none
  | fuel + 1, s =>
    match skipJsonWs s with
    | '\"' :: rest =>
      match parseStringBody (rest.length + 1) rest with
      | some (kcs, afterKey) =>
        match skipJsonWs afterKey with
        | ':' :: afterColon =>
          match parseVal fuel afterColon with
          | some (v, rest2) =>
            match skipJsonWs rest2 with
            | ',' :: rest3 =>
              match parseMembers fuel rest3 with
              | some (kvs, rem) => some ((⟨kcs⟩, v) :: kvs, rem)
              | none => none
            | '\x7d' :: rem => some ([(⟨kcs⟩, v)], rem)
            | _ => none
          | none => none
        | _ => none
      | none => none
    | _ => none

end

/-- `JSON.parse`: parse one value and require only whitespace after it.
The fuel bound 2·length+2 dominates the recursion depth, since at least
one character is consumed for every two recursive steps. -/
def jsonParse (s : String) : Option JSVal :=
  match parseVal (2 * s.length + 2) s.toList with
  | some (v, rest) => if skipJsonWs rest = [] then some v else none
  | none => none

/-- src/aiAnalyzer.js lines 112-137, `analyzeWithAI`: the network call is
abstracted by its outcome (`.error` when the upstream call rejects,
`.ok outputText` when it returns raw text).  The only local computation
on the result is `JSON.parse(resp.output_text)`, whose SyntaxError is
modelled as `.error`; there is no catch, no fence stripping and no
substring extraction in the source. -/
def analyzeWithAI (call : Except String String) : Except String JSVal :=
  match call with
  | .error e => .error e
  | .ok outputText =>
    match jsonParse outputText with
    | some v => .ok v
    | none => .error "SyntaxError: unexpected token"

/-- A row of the `messages` table as written by `insertMessage`
(src/db.js lines 51-85): exactly the eleven inserted columns, each
holding the JS value passed for the corresponding placeholder
(`received_at` is not inserted there; it is filled by the column
default). -/
structure Row where
  id : JSVal
  channel : JSVal
  from_raw : JSVal
  from_email : JSVal
  subject : JSVal
  raw_text : JSVal
  summary : JSVal
  response_needed : JSVal
  needed_to_know : JSVal
  reply_options : JSVal
  flags : JSVal
deriving Repr

/-- src/db.js lines 51-85, `insertMessage`.  `JSON.stringify` followed by
JSONB storage is modelled as storing the JSON value itself. -/
def insertMessage (m : JSVal) : Row :=
  { id := getField m "id"
  , channel := nullish (getField m "channel") (.str "email")
  , from_raw := nullish (getField m "fromRaw") .null
  , from_email := nullish (getField m "fromEmail") .null
  , subject := nullish (getField m "subject") .null
  , raw_text := nullish (getField m "rawText") .null
  , summary := nullish (getField m "summary") .null
  , response_needed := nullish (getField m "responseNeeded") (.bool false)
  , needed_to_know := nullish (getField m "neededToKnow") (.arr [])
  , reply_options := nullish (getField m "replyOptions") (.obj [])
  , flags := nullish (getField m "flags") (.arr []) }

structure HttpResponse where
  status : Nat
  ok : Bool
  id : Option String
  warning : Option String
  error : Option String
deriving Repr

/-- Result of one inbound request: the HTTP response, the row persisted
by `insertMessage` (if any), and whether the classifier was invoked. -/
structure PipelineResult where
  response : HttpResponse
  persisted : Option Row
  classifierCalled : Bool
deriving Repr

/-- src/aiAnalyzer.js lines 293-345, POST /email/inbound.  The string
parameters model the destructured request fields after the `|| ""`
defaulting (so a missing field arrives as the empty string), `id`
models `crypto.randomUUID()` and `receivedAt` models
`new Date().toISOString()`.  `call` is the classifier outcome consumed
by `analyzeWithAI`. -/
def emailInbound (id receivedAt fromAddr subject text : String)
    (call : Except String String) : PipelineResult :=
  if text = "" then
    { response := { status := 400, ok := false, id := none, warning := none,
                    error := some "Missing text body" }
    , persisted := none, classifierCalled := false }
  else
    let fromEmail := extractEmail fromAddr
    let base : List (String × JSVal) :=
      [("id", .str id), ("channel", .str "email"), ("receivedAt", .str receivedAt),
       ("fromRaw", .str fromAddr), ("fromEmail", .str fromEmail),
       ("subject", .str subject), ("rawText", .str text)]
    match analyzeWithAI call with
    | .error _ =>
      let fallback := buildFallbackMessage fromAddr subject text "ai_error"
      let row := insertMessage (.obj (objAssign base (objFields fallback)))
      { response := { status := 202, ok := true, id := some id,
                      warning := some "AI unavailable, stored fallback", error := none }
      , persisted := some row, classifierCalled := true }
    | .ok parsedRaw =>
      let parsed := normalizeParsed parsedRaw
      let row := insertMessage (.obj (objAssign base (objFields parsed)))
      { response := { status := 200, ok := true, id := some id, warning := none,
                      error := none }
      , persisted := some row, classifierCalled := true }

/-- Claim C5: an ingestion request with empty (or missing, which the
`|| ""` defaulting turns into empty) body text is rejected with HTTP
400, the classifier is never invoked, and nothing is persisted. -/
theorem emptyText_rejected (id receivedAt fromAddr subject : String)
    (call : Except String String) :
    emailInbound id receivedAt fromAddr subject "" call =
      { response := { status := 400, ok := false, id := none, warning := none,
                      error := some "Missing text body" }
      , persisted := none, classifierCalled := false } := rfl

theorem aiErrorBranch_facts (id receivedAt fromAddr subject text err : String)
    (h : text ≠ "") :
    (emailInbound id receivedAt fromAddr subject text (.error err)).response =
      { status := 202, ok := true, id := some id,
        warning := some "AI unavailable, stored fallback", error := none } ∧
    (emailInbound id receivedAt fromAddr subject text (.error err)).response.status ≠ 200 ∧
    (emailInbound id receivedAt fromAddr subject text (.error err)).persisted.map Row.summary =
      some (.str "(AI unavailable) Message received.") ∧
    (emailInbound id receivedAt fromAddr subject text (.error err)).persisted.map Row.response_needed =
      some (.bool true) ∧
    (emailInbound id receivedAt fromAddr subject text (.error err)).persisted.map Row.flags =
      some (.arr [.obj [("type", .str "ai_error"), ("severity", .num 3)]]) := by
  refine ⟨?_, ?_, ?_, ?_, ?_⟩ <;>
    simp [emailInbound, if_neg h, analyzeWithAI, insertMessage, buildFallbackMessage,
      objAssign, objFields, setKey, getField, lookupField, nullish]

/-- Claim C4: when the classifier call fails, the message is still
persisted as an ai_error fallback record, and the caller receives the
degraded partial-success response (HTTP 202 with a warning), distinct
from the full-success response (HTTP 200 without warning). -/
theorem aiFailure_fallback_persisted (id receivedAt fromAddr subject text err : String)
    (h : text ≠ "") :
    (emailInbound id receivedAt fromAddr subject text (.error err)).response =
      { status := 202, ok := true, id := some id,
        warning := some "AI unavailable, stored fallback", error := none } ∧
    (emailInbound id receivedAt fromAddr subject text (.error err)).response.status ≠ 200 ∧
    (emailInbound id receivedAt fromAddr subject text (.error err)).persisted.map Row.summary =
      some (.str "(AI unavailable) Message received.") ∧
    (emailInbound id receivedAt fromAddr subject text (.error err)).persisted.map Row.response_needed =
      some (.bool true) ∧
    (emailInbound id receivedAt fromAddr subject text (.error err)).persisted.map Row.flags =
      some (.arr [.obj [("type", .str "ai_error"), ("severity", .num 3)]]) :=
  aiErrorBranch_facts id receivedAt fromAddr subject text err h

/-- Witness for C4. -/
theorem aiFailure_fallback_persisted_witness :
    (emailInbound "m1" "2026-01-01T00:00:00.000Z" "Jane <jane@x.com>" "Pickup"
        "Can you get him at 5?" (.error "request timed out")).response =
      { status := 202, ok := true, id := some "m1",
        warning := some "AI unavailable, stored fallback", error := none } :=
  (aiFailure_fallback_persisted "m1" "2026-01-01T00:00:00.000Z" "Jane <jane@x.com>"
    "Pickup" "Can you get him at 5?" "request timed out" (by decide)).1

/-- Counterexample to claim C2 as stated: on classifier output that is
not parseable as JSON, the source performs no markdown-fence stripping
and no brace-span extraction; the bare `JSON.parse` throw is caught by
the inbound handler, which persists the message through the ai_error
fallback (severity-3 ai_error flag, placeholder summary) and answers
202 with a warning — not, as the claim states, a full success whose
summary is the raw classifier text with a severity-2 non_json_output
flag. -/
theorem nonJson_not_full_success :
    jsonParse "Sure, here is the summary." = none ∧
    (emailInbound "m2" "2026-01-01T00:00:00.000Z" "Jane <jane@x.com>" "Pickup"
        "Can you get him at 5?" (.ok "Sure, here is the summary.")).response.status = 202 ∧
    (emailInbound "m2" "2026-01-01T00:00:00.000Z" "Jane <jane@x.com>" "Pickup"
        "Can you get him at 5?" (.ok "Sure, here is the summary.")).response.status ≠ 200 ∧
    (emailInbound "m2" "2026-01-01T00:00:00.000Z" "Jane <jane@x.com>" "Pickup"
        "Can you get him at 5?"
        (.ok "Sure, here is the summary.")).response.warning.isSome = true ∧
    (emailInbound "m2" "2026-01-01T00:00:00.000Z" "Jane <jane@x.com>" "Pickup"
        "Can you get him at 5?" (.ok "Sure, here is the summary.")).persisted.map Row.summary =
      some (.str "(AI unavailable) Message received.") ∧
    (emailInbound "m2" "2026-01-01T00:00:00.000Z" "Jane <jane@x.com>" "Pickup"
        "Can you get him at 5?" (.ok "Sure, here is the summary.")).persisted.map Row.summary ≠
      some (.str "Sure, here is the summary.") ∧
    (emailInbound "m2" "2026-01-01T00:00:00.000Z" "Jane <jane@x.com>" "Pickup"
        "Can you get him at 5?" (.ok "Sure, here is the summary.")).persisted.map Row.flags =
      some (.arr [.obj [("type", .str "ai_error"), ("severity", .num 3)]]) := by
  refine ⟨rfl, rfl, by decide, rfl, rfl, ?_, rfl⟩
  have hval : (emailInbound "m2" "2026-01-01T00:00:00.000Z" "Jane <jane@x.com>" "Pickup"
      "Can you get him at 5?" (.ok "Sure, here is the summary.")).persisted.map Row.summary =
      some (.str "(AI unavailable) Message received.") := rfl
  rw [hval]
  simp

/-- Claim C2 (amended): when the classifier call succeeds but its output
text is not parseable as JSON, the pipeline attempts no markdown-fence
stripping and no brace-span extraction: the `JSON.parse` failure
escapes `analyzeWithAI` as a throw, the handler's catch treats it
exactly like a failed classifier call, and the message is persisted as
an ai_error fallback record with the 202 partial-success response. -/
theorem nonJson_output_ai_error_fallback
    (id receivedAt fromAddr subject text raw : String)
    (htext : text ≠ "") (hraw : jsonParse raw = none) :
    emailInbound id receivedAt fromAddr subject text (.ok raw) =
      emailInbound id receivedAt fromAddr subject text
        (.error "SyntaxError: unexpected token") ∧
    (emailInbound id receivedAt fromAddr subject text (.ok raw)).response.status = 202 ∧
    (emailInbound id receivedAt fromAddr subject text (.ok raw)).persisted.map Row.summary =
      some (.str "(AI unavailable) Message received.") ∧
    (emailInbound id receivedAt fromAddr subject text (.ok raw)).persisted.map Row.flags =
      some (.arr [.obj [("type", .str "ai_error"), ("severity", .num 3)]]) := by
  have hcall : analyzeWithAI (.ok raw) =
      analyzeWithAI (.error "SyntaxError: unexpected token") := by
    simp [analyzeWithAI, hraw]
  have hsame : emailInbound id receivedAt fromAddr subject text (.ok raw) =
      emailInbound id receivedAt fromAddr subject text
        (.error "SyntaxError: unexpected token") := by
    simp only [emailInbound, hcall]
  obtain ⟨-, -, hs, -, hf⟩ :=
    aiErrorBranch_facts id receivedAt fromAddr subject text
      "SyntaxError: unexpected token" htext
  refine ⟨hsame, ?_, ?_, ?_⟩
  · rw [hsame]
    simp only [emailInbound, if_neg htext, analyzeWithAI]
  · rw [hsame]
    exact hs
  · rw [hsame]
    exact hf

/-- Witness for the amended C2. -/
theorem nonJson_output_ai_error_fallback_witness :
    (emailInbound "m3" "2026-01-01T00:00:00.000Z" "jane@x.com" "Pickup"
        "See below" (.ok "plain prose, no json here")).response.status = 202 :=
  (nonJson_output_ai_error_fallback "m3" "2026-01-01T00:00:00.000Z" "jane@x.com"
    "Pickup" "See below" "plain prose, no json here" (by decide) (by rfl)).2.1

theorem nullish_not_nullish (v d : JSVal) (hd1 : d ≠ .null) (hd2 : d ≠ .undefined) :
    nullish v d ≠ .null ∧ nullish v d ≠ .undefined := by
  cases v <;> simp_all [nullish]

theorem nullish_eq_default (v d : JSVal) (h : v = .null ∨ v = .undefined) :
    nullish v d = d := by
  rcases h with h | h <;> subst h <;> rfl

/-- Claim C10: the store layer itself never writes null (or undefined)
into the channel, response_needed, needed_to_know, reply_options or
flags columns, defaulting a missing/null channel to "email",
responseNeeded to false, neededToKnow and flags to the empty sequence
and replyOptions to the empty object, independently of the
Normalizer. -/
theorem insertMessage_defaults (m : JSVal) :
    ((insertMessage m).channel ≠ .null ∧ (insertMessage m).channel ≠ .undefined) ∧
    ((insertMessage m).response_needed ≠ .null ∧ (insertMessage m).response_needed ≠ .undefined) ∧
    ((insertMessage m).needed_to_know ≠ .null ∧ (insertMessage m).needed_to_know ≠ .undefined) ∧
    ((insertMessage m).reply_options ≠ .null ∧ (insertMessage m).reply_options ≠ .undefined) ∧
    ((insertMessage m).flags ≠ .null ∧ (insertMessage m).flags ≠ .undefined) ∧
    ((getField m "channel" = .null ∨ getField m "channel" = .undefined) →
      (insertMessage m).channel = .str "email") ∧
    ((getField m "responseNeeded" = .null ∨ getField m "responseNeeded" = .undefined) →
      (insertMessage m).response_needed = .bool false) ∧
    ((getField m "neededToKnow" = .null ∨ getField m "neededToKnow" = .undefined) →
      (insertMessage m).needed_to_know = .arr []) ∧
    ((getField m "replyOptions" = .null ∨ getField m "replyOptions" = .undefined) →
      (insertMessage m).reply_options = .obj []) ∧
    ((getField m "flags" = .null ∨ getField m "flags" = .undefined) →
      (insertMessage m).flags = .arr []) := by
  refine ⟨?_, ?_, ?_, ?_, ?_, ?_, ?_, ?_, ?_, ?_⟩
  · exact nullish_not_nullish _ _ (by simp) (by simp)
  · exact nullish_not_nullish _ _ (by simp) (by simp)
  · exact nullish_not_nullish _ _ (by simp) (by simp)
  · exact nullish_not_nullish _ _ (by simp) (by simp)
  · exact nullish_not_nullish _ _ (by simp) (by simp)
  · exact fun h => nullish_eq_default _ _ h
  · exact fun h => nullish_eq_default _ _ h
  · exact fun h => nullish_eq_default _ _ h
  · exact fun h => nullish_eq_default _ _ h
  · exact fun h => nullish_eq_default _ _ h

/-- Witness for C10 at the empty record: every defaulted column. -/
theorem insertMessage_defaults_witness :
    (insertMessage (JSVal.obj [])).channel = .str "email" ∧
    (insertMessage (JSVal.obj [])).response_needed = .bool false ∧
    (insertMessage (JSVal.obj [])).needed_to_know = .arr [] ∧
    (insertMessage (JSVal.obj [])).reply_options = .obj [] ∧
    (insertMessage (JSVal.obj [])).flags = .arr [] :=
  ⟨(insertMessage_defaults (JSVal.obj [])).2.2.2.2.2.1 (Or.inr rfl),
   (insertMessage_defaults (JSVal.obj [])).2.2.2.2.2.2.1 (Or.inr rfl),
   (insertMessage_defaults (JSVal.obj [])).2.2.2.2.2.2.2.1 (Or.inr rfl),
   (insertMessage_defaults (JSVal.obj [])).2.2.2.2.2.2.2.2.1 (Or.inr rfl),
   (insertMessage_defaults (JSVal.obj [])).2.2.2.2.2.2.2.2.2 (Or.inr rfl)⟩

/-!
Outbound authorization (src/aiAnalyzer.js lines 173-177, 348-408): the
fixed allow-list and the /reply and /compose handlers.  Request fields
are modelled as strings after the destructuring defaults (missing
field = empty string, which is what the falsy checks test); the
SendGrid call is modelled by the `sendAttempted`/`sendTo` fields of the
outcome, set only on the path that reaches `sendEmail`.
-/

def ALLOWED_RECIPIENTS : List String :=
  ["jeremybnewman@gmail.com", "jklinenewman@gmail.com", "soffe.mikelle@gmail.com"]

structure SendOutcome where
  status : Nat
  sendAttempted : Bool
  sendTo : Option String
  sendSubject : Option String
deriving Repr, DecidableEq

/-- JS `a || b` for strings (empty is the only falsy string). -/
def jsOr (a b : String) : String := if a = "" then b else a

/-- The columns selected by the /reply lookup (all nullable). -/
structure ReplyRow where
  from_raw : Option String
  from_email : Option String
  subject : Option String
deriving Repr, DecidableEq

/-- The /reply recipient resolution:
`(msg.from_email || extractEmail(msg.from_raw || "") || "").trim().toLowerCase()`
(a null column arrives as the falsy empty string through `||`). -/
def replyResolvedTo (m : ReplyRow) : String :=
  jsToLower (jsTrim
    (jsOr (jsOr (m.from_email.getD "") (extractEmail (m.from_raw.getD ""))) ""))

/-- src/aiAnalyzer.js lines 348-379, POST /reply.  `msg` is the result of
the store lookup for `messageId`. -/
def replyHandler (messageId body : String) (msg : Option ReplyRow) : SendOutcome :=
  if messageId = "" ∨ body = "" then
    { status := 400, sendAttempted := false, sendTo := none, sendSubject := none }
  else
    match msg with
    | none => { status := 404, sendAttempted := false, sendTo := none, sendSubject := none }
    | some m =>
      let toAddr := replyResolvedTo m
      if toAddr = "" ∨ toAddr ∉ ALLOWED_RECIPIENTS then
        { status := 403, sendAttempted := false, sendTo := none, sendSubject := none }
      else
        { status := 202, sendAttempted := true, sendTo := some toAddr,
          sendSubject := some (if m.subject.getD "" = "" then "Re:"
            else "Re: " ++ m.subject.getD "") }

/-- src/aiAnalyzer.js lines 382-408, POST /compose. -/
def composeHandler (toAddr subject body : String) : SendOutcome :=
  let cleanTo := jsToLower (jsTrim toAddr)
  if cleanTo = "" ∨ body = "" then
    { status := 400, sendAttempted := false, sendTo := none, sendSubject := none }
  else if cleanTo ∉ ALLOWED_RECIPIENTS then
    { status := 403, sendAttempted := false, sendTo := none, sendSubject := none }
  else
    { status := 202, sendAttempted := true, sendTo := some cleanTo,
      sendSubject := some (if jsTrim subject = "" then "(no subject)" else jsTrim subject) }

/-- Counterexample to claim C8 as stated: a compose request whose
resolved recipient is not in the allow-list but whose body is empty
fails with the missing-field client error 400, not with the
authorization error 403 the claim requires for every such request (no
send is attempted either way). -/
theorem compose_unlisted_empty_body_400 :
    "stranger@example.com" ∉ ALLOWED_RECIPIENTS ∧
    jsToLower (jsTrim "stranger@example.com") = "stranger@example.com" ∧
    (composeHandler "stranger@example.com" "subject" "").status = 400 ∧
    (composeHandler "stranger@example.com" "subject" "").status ≠ 403 ∧
    (composeHandler "stranger@example.com" "subject" "").sendAttempted = false :=
  ⟨by decide, by decide, rfl, by decide, rfl⟩

/-- Claim C8 (amended): a reply or compose request whose resolved
recipient is not in the allow-list never triggers a send; it fails with
the authorization error 403 whenever it passes the preceding
missing-field validation (non-empty resolved recipient and body for
compose; present messageId, body and a found message for reply — a
reply whose message is not found is rejected 404 before any recipient
exists). -/
theorem allowlist_unlisted_no_send :
    (∀ toAddr subject body, jsToLower (jsTrim toAddr) ∉ ALLOWED_RECIPIENTS →
      (composeHandler toAddr subject body).sendAttempted = false ∧
      (jsToLower (jsTrim toAddr) ≠ "" → body ≠ "" →
        (composeHandler toAddr subject body).status = 403)) ∧
    (∀ messageId body m, replyResolvedTo m ∉ ALLOWED_RECIPIENTS →
      (replyHandler messageId body (some m)).sendAttempted = false ∧
      (messageId ≠ "" → body ≠ "" →
        (replyHandler messageId body (some m)).status = 403)) ∧
    (∀ messageId body, (replyHandler messageId body none).sendAttempted = false) := by
  refine ⟨?_, ?_, ?_⟩
  · intro toAddr subject body hnot
    constructor
    · by_cases h1 : jsToLower (jsTrim toAddr) = "" ∨ body = ""
      · simp [composeHandler, h1]
      · simp [composeHandler, h1, hnot]
    · intro hc hb
      have h1 : ¬(jsToLower (jsTrim toAddr) = "" ∨ body = "") := by
        push_neg
        exact ⟨hc, hb⟩
      simp [composeHandler, h1, hnot]
  · intro messageId body m hnot
    constructor
    · by_cases h1 : messageId = "" ∨ body = ""
      · simp [replyHandler, h1]
      · simp [replyHandler, h1, Or.inr hnot]
    · intro hm hb
      have h1 : ¬(messageId = "" ∨ body = "") := by
        push_neg
        exact ⟨hm, hb⟩
      simp [replyHandler, h1, Or.inr hnot]
  · intro messageId body
    by_cases h1 : messageId = "" ∨ body = ""
    · simp [replyHandler, h1]
    · simp [replyHandler, h1]

/-- Witness for the amended C8: a well-formed compose request to an
unlisted address is rejected 403 with no send, and likewise for a
reply resolving to an unlisted address. -/
theorem allowlist_unlisted_no_send_witness :
    ((composeHandler "stranger@example.com" "subject" "hello").sendAttempted = false ∧
      ("stranger@example.com" ≠ "" → "hello" ≠ "" →
        (composeHandler "stranger@example.com" "subject" "hello").status = 403)) ∧
    ((replyHandler "m1" "hello"
        (some { from_raw := some "Stranger <stranger@example.com>",
                from_email := some "stranger@example.com",
                subject := some "hi" })).sendAttempted = false ∧
      ("m1" ≠ "" → "hello" ≠ "" →
        (replyHandler "m1" "hello"
          (some { from_raw := some "Stranger <stranger@example.com>",
                  from_email := some "stranger@example.com",
                  subject := some "hi" })).status = 403)) :=
  ⟨allowlist_unlisted_no_send.1 "stranger@example.com" "subject" "hello" (by decide),
   allowlist_unlisted_no_send.2.1 "m1" "hello"
     { from_raw := some "Stranger <stranger@example.com>",
       from_email := some "stranger@example.com", subject := some "hi" }
     (by decide)⟩

/-!
The message listing (src/db.js lines 91-115): `SELECT ... ORDER BY
received_at DESC LIMIT $1`, invoked by GET /messages with limit 200
(src/aiAnalyzer.js lines 282-290).  The table is the list of rows in
insertion order; the row payload is abstracted to the identifier since
the SELECT passes every column through unchanged.  `ORDER BY` fixes
only the key order: PostgreSQL's sort is not stable, and under LIMIT a
top-N heapsort may arrange equal keys arbitrarily, so the query is
modelled as a relation between the table and its possible results — a
result is any permutation of the table that is sorted by received_at
descending, truncated to the limit. -/

structure StoredRow where
  msg_id : String
  received_at : Nat
deriving Repr, DecidableEq

/-- `listMessages table limit out` holds iff `out` is a result the query
`SELECT ... ORDER BY received_at DESC LIMIT limit` may return on
`table`. -/
def listMessages (table : List StoredRow) (limit : Nat) (out : List StoredRow) : Prop :=
  ∃ sorted : List StoredRow, List.Perm sorted table ∧
    sorted.Pairwise (fun a b => b.received_at ≤ a.received_at) ∧
    out = sorted.take limit

theorem strict_keys_inj (table : List StoredRow)
    (h : table.Pairwise (fun a b => a.received_at < b.received_at)) :
    ∀ a ∈ table, ∀ b ∈ table, a.received_at = b.received_at → a = b := by
  induction table with
  | nil =>
    intro a ha
    exact absurd ha (List.not_mem_nil a)
  | cons x xs ih =>
    rw [List.pairwise_cons] at h
    obtain ⟨hx, hxs⟩ := h
    intro a ha b hb heq
    rcases List.mem_cons.mp ha with rfl | ha'
    · rcases List.mem_cons.mp hb with rfl | hb'
      · rfl
      · exact absurd heq (by have := hx b hb'; omega)
    · rcases List.mem_cons.mp hb with rfl | hb'
      · exact absurd heq (by have := hx a ha'; omega)
      · exact ih hxs a ha' b hb' heq

/-- Counterexample to claim C9 as stated: for two rows inserted with the
same received_at, the query is also allowed to return them in reversed
insertion order — `ORDER BY received_at DESC LIMIT` constrains only the
key order, so the code does not guarantee that ties are broken by
insertion order. -/
theorem listing_tie_order_unspecified :
    listMessages [⟨"a", 1⟩, ⟨"b", 1⟩] 200 [⟨"b", 1⟩, ⟨"a", 1⟩] ∧
    [(⟨"b", 1⟩ : StoredRow), ⟨"a", 1⟩] ≠ [⟨"a", 1⟩, ⟨"b", 1⟩] :=
  ⟨⟨[⟨"b", 1⟩, ⟨"a", 1⟩], by decide, by decide, rfl⟩, by decide⟩

/-- Claim C9 (amended): every possible listing result has at most
`limit` rows (the route passes 200) and is sorted by received_at
descending; the relative order of equal-key rows is unspecified.  For a
table inserted with strictly increasing received_at the result is
uniquely determined: the reversed insertion order truncated to the
limit — in particular strictly descending. -/
theorem listMessages_ordering :
    (∀ (table out : List StoredRow) (limit : Nat),
      listMessages table limit out → out.length ≤ limit) ∧
    (∀ (table out : List StoredRow) (limit : Nat),
      listMessages table limit out →
        out.Pairwise (fun a b => b.received_at ≤ a.received_at)) ∧
    (∀ (table out : List StoredRow) (limit : Nat),
      table.Pairwise (fun a b => a.received_at < b.received_at) →
      listMessages table limit out → out = table.reverse.take limit) := by
  refine ⟨?_, ?_, ?_⟩
  · rintro table out limit ⟨sorted, hperm, hsort, rfl⟩
    exact List.length_take_le limit _
  · rintro table out limit ⟨sorted, hperm, hsort, rfl⟩
    exact hsort.sublist (List.take_sublist _ _)
  · rintro table out limit hstrict ⟨sorted, hperm, hsort, rfl⟩
    have hsorted_eq : sorted = table.reverse := by
      have hanti : ∀ a b : StoredRow, a ∈ sorted → b ∈ table.reverse →
          b.received_at ≤ a.received_at → a.received_at ≤ b.received_at → a = b := by
        intro a b ha hb hab hba
        have ha' : a ∈ table := hperm.mem_iff.mp ha
        have hb' : b ∈ table := List.mem_reverse.mp hb
        exact strict_keys_inj table hstrict a ha' b hb' (by omega)
      have h2 : table.reverse.Pairwise (fun a b => b.received_at ≤ a.received_at) := by
        rw [List.pairwise_reverse]
        exact hstrict.imp (by intro a b hab; omega)
      exact List.Perm.eq_of_sorted hanti hsort h2
        (hperm.trans (List.reverse_perm table).symm)
    rw [hsorted_eq]

/-- Witness for the amended C9: a concrete listing result of three rows
inserted with strictly increasing timestamps is bounded, descending,
and exactly the reversed insertion order under the default limit of
200. -/
theorem listMessages_ordering_witness :
    ([(⟨"c", 3⟩ : StoredRow), ⟨"b", 2⟩, ⟨"a", 1⟩] : List StoredRow).length ≤ 200 ∧
    ([(⟨"c", 3⟩ : StoredRow), ⟨"b", 2⟩, ⟨"a", 1⟩] : List StoredRow).Pairwise
      (fun a b => b.received_at ≤ a.received_at) ∧
    [(⟨"c", 3⟩ : StoredRow), ⟨"b", 2⟩, ⟨"a", 1⟩] =
      ([⟨"a", 1⟩, ⟨"b", 2⟩, ⟨"c", 3⟩] : List StoredRow).reverse.take 200 :=
  ⟨listMessages_ordering.1 [⟨"a", 1⟩, ⟨"b", 2⟩, ⟨"c", 3⟩]
      [⟨"c", 3⟩, ⟨"b", 2⟩, ⟨"a", 1⟩] 200
      ⟨[⟨"c", 3⟩, ⟨"b", 2⟩, ⟨"a", 1⟩], by decide, by decide, rfl⟩,
   listMessages_ordering.2.1 [⟨"a", 1⟩, ⟨"b", 2⟩, ⟨"c", 3⟩]
      [⟨"c", 3⟩, ⟨"b", 2⟩, ⟨"a", 1⟩] 200
      ⟨[⟨"c", 3⟩, ⟨"b", 2⟩, ⟨"a", 1⟩], by decide, by decide, rfl⟩,
   listMessages_ordering.2.2 [⟨"a", 1⟩, ⟨"b", 2⟩, ⟨"c", 3⟩]
      [⟨"c", 3⟩, ⟨"b", 2⟩, ⟨"a", 1⟩] 200 (by decide)
      ⟨[⟨"c", 3⟩, ⟨"b", 2⟩, ⟨"a", 1⟩], by decide, by decide, rfl⟩⟩
